import Mathlib

/-!
Shallow embedding of the job-lifecycle client of `strawberryfields`
(files `strawberryfields/api/job.py` and `strawberryfields/api/connection.py`),
and proofs of the specification claims about it.

The transport layer (`requests`) is modelled as a `Server` value mapping each
endpoint to a canned HTTP response; every Connection operation returns, next to
its Python result (`Except PyError _` models raised exceptions), the list of
network calls it performed, so that call-counting properties can be stated.
-/

/-- A JSON scalar as it appears in an error body (`status_code` may be a
number, `code` and `detail` strings); `render` is Python's `str()` on it,
as used by `str.format`. -/
inductive JVal
  | num (n : Int)
  | str (s : String)
  deriving DecidableEq, Repr

def JVal.render : JVal → String
  | .num n => toString n
  | .str s => s

/-- The JSON object of a response body.  The success bodies of the job
endpoints carry `id` and `status`; error bodies carry the optional fields
`status_code`, `code` and `detail` (spec section 6).  A missing key is
`none`. -/
structure JsonObj where
  id : Option String := none
  status : Option String := none
  status_code : Option JVal := none
  code : Option JVal := none
  detail : Option JVal := none
  deriving DecidableEq, Repr

/-- The decoded numeric sample array carried by the binary payload of the
result endpoint (`np.load` of the response content); the numeric binary codec
is an external collaborator, so the embedding works with the decoded array. -/
def Samples := List (List Int)
deriving DecidableEq, Repr

/-- An HTTP response: status code, JSON body, and (for the result endpoint)
the decoded binary content. -/
structure Response where
  status_code : Nat
  body : JsonObj := {}
  content : Samples := []
  deriving DecidableEq, Repr

/-- The remote platform, as seen through the transport adapter: one canned
response per endpoint (job endpoints are keyed by the job id in the path). -/
structure Server where
  jobResponse : String → Response
  resultResponse : String → Response
  cancelResponse : String → Response
  healthResponse : Response
  createResponse : Response

/-- One network call, identified by endpoint and path parameter. -/
inductive ApiCall
  | getJobCall (job_id : String)
  | getJobResultCall (job_id : String)
  | cancelJobCall (job_id : String)
  | pingCall
  | createJobCall
  deriving DecidableEq, Repr

/-- Python exceptions raised by the client code. -/
inductive PyError
  | RequestFailedError (msg : String)
  | InvalidJobOperationError (msg : String)
  | AttributeError (msg : String)
  | KeyError (key : String)
  | ValueError (msg : String)
  | NotImplementedError (msg : String)
  deriving DecidableEq, Repr

/-- `JobStatus` enumeration (`job.py`): five members, each with its wire
string value. -/
inductive JobStatus
  | OPEN
  | QUEUED
  | CANCELLED
  | COMPLETED
  | FAILED
  deriving DecidableEq, Repr

/-- The wire string of each status (`job.py` lines 36-40); note that
`COMPLETED` maps to `"complete"`. -/
def JobStatus.value : JobStatus → String
  | .OPEN => "open"
  | .QUEUED => "queued"
  | .CANCELLED => "cancelled"
  | .COMPLETED => "complete"
  | .FAILED => "failed"

/-- Python's `JobStatus(s)` enum lookup by value: the member whose `value`
is `s`, or a `ValueError` (modelled as `none`) for an unknown string. -/
def JobStatus.ofString (s : String) : Option JobStatus :=
  if s = "open" then some .OPEN
  else if s = "queued" then some .QUEUED
  else if s = "cancelled" then some .CANCELLED
  else if s = "complete" then some .COMPLETED
  else if s = "failed" then some .FAILED
  else none

/-- `JobStatus.is_final` (`job.py` lines 42-49). -/
def JobStatus.is_final (s : JobStatus) : Bool :=
  s = JobStatus.CANCELLED ∨ s = JobStatus.COMPLETED ∨ s = JobStatus.FAILED

/-- Modelled from the spec: `strawberryfields/api/result.py` is not among the
source files; spec section 3 describes `Result` as an immutable value object
holding `samples` (a numeric array of shot outcomes) and `is_stateful`
(false for sample-only remote results), with structural equality. -/
structure Result where
  samples : Samples
  is_stateful : Bool
  deriving DecidableEq, Repr

/-- The `Job` entity state: fields `_id`, `_status`, `_result` of
`job.py`.  The `_connection` back-reference is modelled by passing the
`Server` to the operations that use it. -/
structure Job where
  _id : String
  _status : JobStatus
  _result : Option Result
  deriving DecidableEq, Repr

/-- `Job.__init__` (`job.py` lines 65-69): stores the id and status and sets
`_result` to `None`. -/
def Job.init (id_ : String) (status : JobStatus) : Job :=
  { _id := id_, _status := status, _result := none }

/-- The `Job.id` property. -/
def Job.id (j : Job) : String := j._id

/-- The `Job.status` property. -/
def Job.status (j : Job) : JobStatus := j._status

/-- The `Job.result` property (`job.py` lines 82-93): raises
`AttributeError` unless the status is `COMPLETED`, and otherwise returns
`self._result` — which is whatever the field holds, `None` included. -/
def Job.result (j : Job) : Except PyError (Option Result) :=
  if j.status ≠ JobStatus.COMPLETED then
    .error (.AttributeError
      ("The result is undefined for jobs that are not completed " ++
        "(current status: " ++ j.status.value ++ ")"))
  else
    .ok j._result

/-- Python's `str.format` with `\x7b\x7d` placeholders: each placeholder is
replaced by the next argument, left to right; replacement text is never
re-scanned. -/
def pyFormatAux : List Char → List String → List Char
  | [], _ => []
  | c :: c2 :: rest2, a :: args2 =>
    if c = Char.ofNat 123 ∧ c2 = Char.ofNat 125 then
      a.data ++ pyFormatAux rest2 args2
    else
      c :: pyFormatAux (c2 :: rest2) (a :: args2)
  | c :: rest, args => c :: pyFormatAux rest args
termination_by l _ => l.length

def pyFormat (template : String) (args : List String) : String :=
  String.mk (pyFormatAux template.data args)

/-- `body.get(key, "")` rendered by `str.format`: the rendered value when the
key is present, the empty string otherwise. -/
def jsonGetD (v : Option JVal) : String :=
  (v.map JVal.render).getD ""

/-- `Connection._format_error_message` (`connection.py` lines 272-277):
formats `"\x7b\x7d (\x7b\x7d): \x7b\x7d"` with the `status_code`, `code` and
`detail` fields of the JSON error body, substituting `""` for missing
fields. -/
def _format_error_message (body : JsonObj) : String :=
  pyFormat "\x7b\x7d (\x7b\x7d): \x7b\x7d"
    [jsonGetD body.status_code, jsonGetD body.code, jsonGetD body.detail]

/-- `Connection.get_job` (`connection.py` lines 183-202): GET `/jobs/{id}`;
on 200 builds a `Job` from the body's `id` and `status` fields, otherwise
raises `RequestFailedError` with the formatted error body. -/
def Connection.get_job (srv : Server) (job_id : String) :
    Except PyError Job × List ApiCall :=
  let response := srv.jobResponse job_id
  let calls := [ApiCall.getJobCall job_id]
  if response.status_code = 200 then
    match response.body.id with
    | none => (.error (.KeyError "id"), calls)
    | some i =>
      match response.body.status with
      | none => (.error (.KeyError "status"), calls)
      | some s =>
        match JobStatus.ofString s with
        | none => (.error (.ValueError s), calls)
        | some st => (.ok (Job.init i st), calls)
  else
    (.error (.RequestFailedError
      ("Failed to get job: " ++ _format_error_message response.body)), calls)

/-- `Connection.get_job_status` (`connection.py` lines 204-213): the status
field of `get_job` (Python's `JobStatus(member)` on an enum member is the
member itself). -/
def Connection.get_job_status (srv : Server) (job_id : String) :
    Except PyError JobStatus × List ApiCall :=
  match Connection.get_job srv job_id with
  | (.ok j, calls) => (.ok j.status, calls)
  | (.error e, calls) => (.error e, calls)

/-- `Connection.get_job_result` (`connection.py` lines 215-237): GET
`/jobs/{id}/result`; on 200 decodes the binary payload and wraps it as
`Result(samples, is_stateful=False)`, otherwise raises
`RequestFailedError`. -/
def Connection.get_job_result (srv : Server) (job_id : String) :
    Except PyError Result × List ApiCall :=
  let response := srv.resultResponse job_id
  let calls := [ApiCall.getJobResultCall job_id]
  if response.status_code = 200 then
    (.ok { samples := response.content, is_stateful := false }, calls)
  else
    (.error (.RequestFailedError
      ("Failed to get job result: " ++ _format_error_message response.body)),
      calls)

/-- `Connection.cancel_job` (`connection.py` lines 239-257): PATCH
`/jobs/{id}` with a cancellation payload; success is exactly 204, any other
code raises `RequestFailedError`. -/
def Connection.cancel_job (srv : Server) (job_id : String) :
    Except PyError Unit × List ApiCall :=
  let response := srv.cancelResponse job_id
  let calls := [ApiCall.cancelJobCall job_id]
  if response.status_code = 204 then
    (.ok (), calls)
  else
    (.error (.RequestFailedError
      ("Failed to cancel job: " ++ _format_error_message response.body)), calls)

/-- `Connection.ping` (`connection.py` lines 259-267): GET `/healthz` and
return whether the status code is 200; the body has no raise path. -/
def Connection.ping (srv : Server) : Except PyError Bool × List ApiCall :=
  (.ok (srv.healthResponse.status_code = 200 : Bool), [ApiCall.pingCall])

/-- `Connection.create_job` (`connection.py` lines 134-169), after the
external circuit serialization step: POST `/jobs`; on 201 builds a `Job`
from the body's `id` and `status`, otherwise raises `RequestFailedError`. -/
def Connection.create_job (srv : Server) :
    Except PyError Job × List ApiCall :=
  let response := srv.createResponse
  let calls := [ApiCall.createJobCall]
  if response.status_code = 201 then
    match response.body.id with
    | none => (.error (.KeyError "id"), calls)
    | some i =>
      match response.body.status with
      | none => (.error (.KeyError "status"), calls)
      | some s =>
        match JobStatus.ofString s with
        | none => (.error (.ValueError s), calls)
        | some st => (.ok (Job.init i st), calls)
  else
    (.error (.RequestFailedError
      ("Failed to create job: " ++ _format_error_message response.body)), calls)

/-- `Connection.get_all_jobs` (`connection.py` lines 171-181): unconditionally
raises `NotImplementedError`. -/
def Connection.get_all_jobs (_srv : Server) :
    Except PyError (List Job) × List ApiCall :=
  (.error (.NotImplementedError "This feature is not yet implemented"), [])

deriving instance DecidableEq for Except

/-- Everything `Job.refresh` produces: the job's post-state, the raised
exception if any, the network calls made, and the warnings logged. -/
structure RefreshOutcome where
  job : Job
  outcome : Except PyError Unit
  calls : List ApiCall
  warnings : List String
  deriving DecidableEq, Repr

/-- `Job.refresh` (`job.py` lines 95-106): on a final status, log a warning
and return; otherwise fetch the status (an exception there propagates with
`_status` untouched), assign it, and if it is `COMPLETED` fetch and attach
the result (an exception there propagates with `_status` already
assigned). -/
def Job.refresh (srv : Server) (j : Job) : RefreshOutcome :=
  if j.status.is_final then
    { job := j, outcome := .ok (), calls := [],
      warnings := ["A " ++ j.status.value ++ " job cannot be refreshed"] }
  else
    match Connection.get_job_status srv j.id with
    | (.error e, calls) =>
      { job := j, outcome := .error e, calls := calls, warnings := [] }
    | (.ok st, calls) =>
      let j1 : Job := { j with _status := st }
      if st = JobStatus.COMPLETED then
        match Connection.get_job_result srv j.id with
        | (.error e, calls2) =>
          { job := j1, outcome := .error e, calls := calls ++ calls2,
            warnings := [] }
        | (.ok r, calls2) =>
          { job := { j1 with _result := some r }, outcome := .ok (),
            calls := calls ++ calls2, warnings := [] }
      else
        { job := j1, outcome := .ok (), calls := calls, warnings := [] }

/-- Everything `Job.cancel` produces: the job's post-state (the method
assigns to no field of `self`), the raised exception if any, and the network
calls made. -/
structure CancelOutcome where
  job : Job
  outcome : Except PyError Unit
  calls : List ApiCall
  deriving DecidableEq, Repr

/-- `Job.cancel` (`job.py` lines 108-117): raises
`InvalidJobOperationError` on a final status, otherwise delegates to
`Connection.cancel_job`; it never writes to `_status` or `_result`. -/
def Job.cancel (srv : Server) (j : Job) : CancelOutcome :=
  if j.status.is_final then
    { job := j,
      outcome := .error (.InvalidJobOperationError
        ("A " ++ j.status.value ++ " job cannot be cancelled")),
      calls := [] }
  else
    match Connection.cancel_job srv j.id with
    | (r, calls) => { job := j, outcome := r, calls := calls }

/-- Number of calls in a trace hitting the status endpoint GET `/jobs/{id}`. -/
def countStatusCalls (tr : List ApiCall) : Nat :=
  (tr.filter fun c => match c with | .getJobCall _ => true | _ => false).length

/-- Number of calls in a trace hitting the result endpoint
GET `/jobs/{id}/result`. -/
def countResultCalls (tr : List ApiCall) : Nat :=
  (tr.filter fun c => match c with | .getJobResultCall _ => true | _ => false).length

/-- Number of calls in a trace hitting the cancel endpoint PATCH `/jobs/{id}`. -/
def countCancelCalls (tr : List ApiCall) : Nat :=
  (tr.filter fun c => match c with | .cancelJobCall _ => true | _ => false).length

/-- The calls list of `Connection.get_job` is always the single GET
`/jobs/{id}` request. -/
theorem get_job_calls (srv : Server) (job_id : String) :
    (Connection.get_job srv job_id).2 = [ApiCall.getJobCall job_id] := by
  simp only [Connection.get_job]
  repeat' split
  all_goals rfl

/-- The calls list of `Connection.get_job_status` is the single GET
`/jobs/{id}` request of the underlying `get_job`. -/
theorem get_job_status_calls (srv : Server) (job_id : String) :
    (Connection.get_job_status srv job_id).2 = [ApiCall.getJobCall job_id] := by
  simp only [Connection.get_job_status]
  split
  next h => exact (congrArg Prod.snd h).symm.trans (get_job_calls srv job_id)
  next h => exact (congrArg Prod.snd h).symm.trans (get_job_calls srv job_id)

/-- The calls list of `Connection.get_job_result` is the single GET
`/jobs/{id}/result` request. -/
theorem get_job_result_calls (srv : Server) (job_id : String) :
    (Connection.get_job_result srv job_id).2 = [ApiCall.getJobResultCall job_id] := by
  simp only [Connection.get_job_result]
  split <;> rfl

/-- The calls list of `Connection.cancel_job` is the single PATCH
`/jobs/{id}` request. -/
theorem cancel_job_calls (srv : Server) (job_id : String) :
    (Connection.cancel_job srv job_id).2 = [ApiCall.cancelJobCall job_id] := by
  simp only [Connection.cancel_job]
  split <;> rfl

/-- Formatting the fixed three-placeholder template is concatenation of the
three rendered fields. -/
theorem pyFormat_three (a b c : String) :
    pyFormat "\x7b\x7d (\x7b\x7d): \x7b\x7d" [a, b, c] =
      a ++ " (" ++ b ++ "): " ++ c := by
  show String.mk _ = _
  simp [pyFormat, pyFormatAux, String.ext_iff, String.data_append]

/-- A server whose job endpoint reports a completed job, with all other
endpoints succeeding; used to instantiate the universally quantified
theorems at a concrete input. -/
def wSrv : Server where
  jobResponse := fun _ =>
    { status_code := 200, body := { id := some "abc", status := some "complete" } }
  resultResponse := fun _ =>
    { status_code := 200, content := [[0, 1, 0, 2, 1, 0, 0, 0]] }
  cancelResponse := fun _ => { status_code := 204 }
  healthResponse := { status_code := 200 }
  createResponse :=
    { status_code := 201, body := { id := some "d177", status := some "queued" } }

/-- A server whose job endpoint reports a completed job but whose result and
create endpoints fail with a 500 error body. -/
def wErrSrv : Server where
  jobResponse := fun _ =>
    { status_code := 200, body := { id := some "abc", status := some "complete" } }
  resultResponse := fun _ =>
    { status_code := 500,
      body := { status_code := some (.num 500), code := some (.str "E1"),
                detail := some (.str "boom") } }
  cancelResponse := fun _ =>
    { status_code := 500,
      body := { status_code := some (.num 500), code := some (.str "E1"),
                detail := some (.str "boom") } }
  healthResponse := { status_code := 503 }
  createResponse :=
    { status_code := 500,
      body := { status_code := some (.num 500), code := some (.str "E1"),
                detail := some (.str "boom") } }

/-- Claim C1: the spec's invariant `result.is_some ⇔ status == Completed` is
supposed to hold for every `Job`, in particular right after `Connection.get_job`
reconstructs a job whose server-reported status is `Completed`.  The code
violates it there: `Job.__init__` always sets `_result` to `None`, so the job
returned by `get_job` for a completed job has `status = COMPLETED` and no
result, and `job.result` returns the `None` sentinel (the docstring example of
`connection.py` lines 63-69 shows `job.result` yielding samples instead). -/
theorem C1_get_job_completed_violates_invariant :
    (Connection.get_job wSrv "abc").1 =
      .ok (Job.init "abc" JobStatus.COMPLETED) ∧
    (Job.init "abc" JobStatus.COMPLETED).status = JobStatus.COMPLETED ∧
    (Job.init "abc" JobStatus.COMPLETED)._result = none ∧
    Job.result (Job.init "abc" JobStatus.COMPLETED) = .ok none ∧
    ¬(((Job.init "abc" JobStatus.COMPLETED)._result).isSome = true ↔
        (Job.init "abc" JobStatus.COMPLETED).status = JobStatus.COMPLETED) :=
  ⟨by decide, rfl, rfl, by decide, by decide⟩

/-- Claim C2: for every job whose status is final, `refresh()` is a swallowed
no-op: it logs a warning, performs zero network calls, raises nothing, and
leaves status and result (the whole job state) unchanged. -/
theorem C2_refresh_final_swallowed_noop (srv : Server) (j : Job)
    (h : j.status.is_final = true) :
    Job.refresh srv j =
      { job := j, outcome := .ok (), calls := [],
        warnings := ["A " ++ j.status.value ++ " job cannot be refreshed"] } := by
  simp [Job.refresh, h]

/-- Witness for C2: a cancelled job refreshed against a live server: unchanged
job, no exception, empty call trace, one logged warning. -/
theorem C2_refresh_final_swallowed_noop_witness :
    (Job.init "abc" JobStatus.CANCELLED).status.is_final = true ∧
    Job.refresh wSrv (Job.init "abc" JobStatus.CANCELLED) =
      { job := Job.init "abc" JobStatus.CANCELLED, outcome := .ok (),
        calls := [], warnings := ["A cancelled job cannot be refreshed"] } :=
  ⟨by decide,
    (C2_refresh_final_swallowed_noop wSrv _ (by decide)).trans (by decide)⟩

/-- Claim C3: for every job with a non-final status, `refresh()` calls the
status endpoint exactly once and sets the local status to the returned value;
it calls the result endpoint exactly once if and only if the returned status
is `Completed`, in which case it attaches the decoded result (and leaves
`_result` untouched otherwise, or when the result fetch fails). -/
theorem C3_refresh_nonfinal_calls (srv : Server) (j : Job)
    (hnf : j.status.is_final = false) (st : JobStatus)
    (hst : (Connection.get_job_status srv j.id).1 = .ok st) :
    (Job.refresh srv j).job.status = st ∧
    countStatusCalls (Job.refresh srv j).calls = 1 ∧
    countResultCalls (Job.refresh srv j).calls =
      (if st = JobStatus.COMPLETED then 1 else 0) ∧
    (Job.refresh srv j).job._result =
      (if st = JobStatus.COMPLETED then
        (match (Connection.get_job_result srv j.id).1 with
          | .ok r => some r
          | .error _ => j._result)
        else j._result) := by
  have hnf' : j._status.is_final = false := hnf
  have hcalls := get_job_status_calls srv j.id
  rcases hgs : Connection.get_job_status srv j.id with ⟨res, calls⟩
  rw [hgs] at hst hcalls
  simp at hst hcalls
  subst hst
  subst hcalls
  rcases hgr : Connection.get_job_result srv j.id with ⟨rres, rcalls⟩
  have hrcalls := get_job_result_calls srv j.id
  rw [hgr] at hrcalls
  simp at hrcalls
  subst hrcalls
  by_cases hc : st = JobStatus.COMPLETED
  · subst hc
    cases rres with
    | ok r =>
      simp [Job.refresh, hnf, hnf', hgs, hgr, countStatusCalls,
        countResultCalls, Job.status]
    | error e =>
      simp [Job.refresh, hnf, hnf', hgs, hgr, countStatusCalls,
        countResultCalls, Job.status]
  · simp [Job.refresh, hnf, hnf', hgs, hc, countStatusCalls, countResultCalls,
      Job.status]

/-- Witness for C3: a queued job refreshed against a server reporting
completion: one status call, one result call, status set, result attached. -/
theorem C3_refresh_nonfinal_calls_witness :
    (Job.init "xyz" JobStatus.QUEUED).status.is_final = false ∧
    (Connection.get_job_status wSrv (Job.init "xyz" JobStatus.QUEUED).id).1 =
      .ok JobStatus.COMPLETED ∧
    ((Job.refresh wSrv (Job.init "xyz" JobStatus.QUEUED)).job.status =
        JobStatus.COMPLETED ∧
      countStatusCalls
        (Job.refresh wSrv (Job.init "xyz" JobStatus.QUEUED)).calls = 1 ∧
      countResultCalls
        (Job.refresh wSrv (Job.init "xyz" JobStatus.QUEUED)).calls =
        (if JobStatus.COMPLETED = JobStatus.COMPLETED then 1 else 0) ∧
      (Job.refresh wSrv (Job.init "xyz" JobStatus.QUEUED)).job._result =
        (if JobStatus.COMPLETED = JobStatus.COMPLETED then
          (match (Connection.get_job_result wSrv
              (Job.init "xyz" JobStatus.QUEUED).id).1 with
            | .ok r => some r
            | .error _ => (Job.init "xyz" JobStatus.QUEUED)._result)
          else (Job.init "xyz" JobStatus.QUEUED)._result)) :=
  ⟨by decide, by decide,
    C3_refresh_nonfinal_calls wSrv _ (by decide) JobStatus.COMPLETED (by decide)⟩

/-- Claim C4: accessing `result` raises an `AttributeError` whenever the
status is not `Completed`; and for a job that transitions into `Completed`
through a successful `refresh()`, `result` afterwards returns exactly the
payload decoded from the result endpoint — a present value, never the `None`
sentinel. -/
theorem C4_result_access :
    (∀ j : Job, j.status ≠ JobStatus.COMPLETED →
      Job.result j = .error (.AttributeError
        ("The result is undefined for jobs that are not completed " ++
          "(current status: " ++ j.status.value ++ ")"))) ∧
    (∀ (srv : Server) (j : Job), j.status.is_final = false →
      (Job.refresh srv j).outcome = .ok () →
      (Job.refresh srv j).job.status = JobStatus.COMPLETED →
      ((Connection.get_job_result srv j.id).1.toOption).isSome = true ∧
      Job.result (Job.refresh srv j).job =
        .ok ((Connection.get_job_result srv j.id).1.toOption)) := by
  constructor
  · intro j h
    simp [Job.result, h]
  · intro srv j hnf hok hcomp
    have hnf' : j._status.is_final = false := hnf
    rcases hgs : Connection.get_job_status srv j.id with ⟨res, calls⟩
    cases res with
    | error e => simp [Job.refresh, hnf, hnf', hgs] at hok
    | ok st =>
      by_cases hc : st = JobStatus.COMPLETED
      · subst hc
        rcases hgr : Connection.get_job_result srv j.id with ⟨rres, rcalls⟩
        cases rres with
        | error e => simp [Job.refresh, hnf, hnf', hgs, hgr] at hok
        | ok r =>
          constructor
          · simp [Except.toOption]
          · simp [Job.refresh, hnf, hnf', hgs, hgr, Job.result, Job.status,
              Except.toOption]
      · simp [Job.refresh, hnf, hnf', hgs, hc, Job.status] at hcomp

/-- Witness for C4: result access on a queued job raises; after a successful
refresh into `Completed` against a live server, it returns the decoded
payload. -/
theorem C4_result_access_witness :
    ((Job.init "abc" JobStatus.QUEUED).status ≠ JobStatus.COMPLETED ∧
      Job.result (Job.init "abc" JobStatus.QUEUED) = .error (.AttributeError
        ("The result is undefined for jobs that are not completed " ++
          "(current status: " ++
          (Job.init "abc" JobStatus.QUEUED).status.value ++ ")"))) ∧
    ((Job.init "abc" JobStatus.QUEUED).status.is_final = false ∧
      (Job.refresh wSrv (Job.init "abc" JobStatus.QUEUED)).outcome = .ok () ∧
      (Job.refresh wSrv (Job.init "abc" JobStatus.QUEUED)).job.status =
        JobStatus.COMPLETED ∧
      ((Connection.get_job_result wSrv
          (Job.init "abc" JobStatus.QUEUED).id).1.toOption).isSome = true ∧
      Job.result (Job.refresh wSrv (Job.init "abc" JobStatus.QUEUED)).job =
        .ok ((Connection.get_job_result wSrv
          (Job.init "abc" JobStatus.QUEUED).id).1.toOption)) :=
  ⟨⟨by decide, C4_result_access.1 _ (by decide)⟩,
    by decide, by decide, by decide,
    C4_result_access.2 wSrv _ (by decide) (by decide) (by decide)⟩

/-- Claim C5: for every job with a non-final status, `cancel()` performs
exactly one call to the cancel endpoint; for every job with a final status,
`cancel()` raises `InvalidJobOperationError` and performs zero network
calls. -/
theorem C5_cancel_calls (srv : Server) (j : Job) :
    (j.status.is_final = false →
      (Job.cancel srv j).calls = [ApiCall.cancelJobCall j.id] ∧
      countCancelCalls (Job.cancel srv j).calls = 1) ∧
    (j.status.is_final = true →
      (Job.cancel srv j).outcome = .error (.InvalidJobOperationError
        ("A " ++ j.status.value ++ " job cannot be cancelled")) ∧
      (Job.cancel srv j).calls = []) := by
  constructor
  · intro h
    have h' : j._status.is_final = false := h
    have hc := cancel_job_calls srv j.id
    rcases hcj : Connection.cancel_job srv j.id with ⟨r, calls⟩
    rw [hcj] at hc
    simp at hc
    subst hc
    simp [Job.cancel, h, h', hcj, countCancelCalls]
  · intro h
    have h' : j._status.is_final = true := h
    simp [Job.cancel, h, h', Job.status]

/-- Witness for C5: cancelling an open job makes one cancel call; cancelling
a completed job raises and makes none. -/
theorem C5_cancel_calls_witness :
    ((Job.init "abc" JobStatus.OPEN).status.is_final = false ∧
      (Job.cancel wSrv (Job.init "abc" JobStatus.OPEN)).calls =
        [ApiCall.cancelJobCall (Job.init "abc" JobStatus.OPEN).id] ∧
      countCancelCalls (Job.cancel wSrv (Job.init "abc" JobStatus.OPEN)).calls
        = 1) ∧
    ((Job.init "abc" JobStatus.COMPLETED).status.is_final = true ∧
      (Job.cancel wSrv (Job.init "abc" JobStatus.COMPLETED)).outcome =
        .error (.InvalidJobOperationError
          ("A " ++ (Job.init "abc" JobStatus.COMPLETED).status.value ++
            " job cannot be cancelled")) ∧
      (Job.cancel wSrv (Job.init "abc" JobStatus.COMPLETED)).calls = []) :=
  ⟨⟨by decide, (C5_cancel_calls wSrv _).1 (by decide)⟩,
    ⟨by decide, (C5_cancel_calls wSrv _).2 (by decide)⟩⟩

/-- Claim C6: for every job with a non-final status, a successful `cancel()`
leaves the job's local state (status and result fields) unchanged: the method
never writes `Cancelled` into the local status, which changes only through a
subsequent `refresh()`. -/
theorem C6_cancel_frame (srv : Server) (j : Job)
    (hnf : j.status.is_final = false)
    (hok : (Job.cancel srv j).outcome = .ok ()) :
    (Job.cancel srv j).job = j ∧
    (Job.cancel srv j).job.status = j.status ∧
    (Job.cancel srv j).job._result = j._result := by
  have hnf' : j._status.is_final = false := hnf
  rcases hcj : Connection.cancel_job srv j.id with ⟨r, calls⟩
  refine ⟨?_, ?_, ?_⟩ <;> simp [Job.cancel, hnf, hnf', hcj]

/-- Witness for C6: a successful cancel of an open job against a live server
leaves the job exactly as it was. -/
theorem C6_cancel_frame_witness :
    (Job.init "abc" JobStatus.OPEN).status.is_final = false ∧
    (Job.cancel wSrv (Job.init "abc" JobStatus.OPEN)).outcome = .ok () ∧
    ((Job.cancel wSrv (Job.init "abc" JobStatus.OPEN)).job =
        Job.init "abc" JobStatus.OPEN ∧
      (Job.cancel wSrv (Job.init "abc" JobStatus.OPEN)).job.status =
        (Job.init "abc" JobStatus.OPEN).status ∧
      (Job.cancel wSrv (Job.init "abc" JobStatus.OPEN)).job._result =
        (Job.init "abc" JobStatus.OPEN)._result) :=
  ⟨by decide, by decide, C6_cancel_frame wSrv _ (by decide) (by decide)⟩

/-- Claim C7: `create_job` succeeds exactly on HTTP 201 — on 201 with the
documented body shape it returns a `Job` whose id and status come from the
response body (so status string `"queued"` yields `QUEUED`) — and on every
other status code it raises `RequestFailedError` carrying the formatted
server error detail. -/
theorem C7_create_job_http201 (srv : Server) :
    (∀ (i s : String) (st : JobStatus),
      srv.createResponse.status_code = 201 →
      srv.createResponse.body.id = some i →
      srv.createResponse.body.status = some s →
      JobStatus.ofString s = some st →
      (Connection.create_job srv).1 = .ok (Job.init i st)) ∧
    (srv.createResponse.status_code ≠ 201 →
      (Connection.create_job srv).1 = .error (.RequestFailedError
        ("Failed to create job: " ++
          _format_error_message srv.createResponse.body))) := by
  constructor
  · intro i s st h201 hid hstatus hof
    simp [Connection.create_job, h201, hid, hstatus, hof]
  · intro h
    simp [Connection.create_job, h]

/-- Witness for C7: a 201 response with body id `"d177"` and status
`"queued"` yields `Job.status = QUEUED`; a 500 response raises
`RequestFailedError` with the formatted detail. -/
theorem C7_create_job_http201_witness :
    (wSrv.createResponse.status_code = 201 ∧
      wSrv.createResponse.body.id = some "d177" ∧
      wSrv.createResponse.body.status = some "queued" ∧
      JobStatus.ofString "queued" = some JobStatus.QUEUED ∧
      (Connection.create_job wSrv).1 =
        .ok (Job.init "d177" JobStatus.QUEUED) ∧
      (Job.init "d177" JobStatus.QUEUED).status = JobStatus.QUEUED) ∧
    (wErrSrv.createResponse.status_code ≠ 201 ∧
      (Connection.create_job wErrSrv).1 = .error (.RequestFailedError
        ("Failed to create job: " ++
          _format_error_message wErrSrv.createResponse.body))) :=
  ⟨⟨by decide, by decide, by decide, by decide,
      (C7_create_job_http201 wSrv).1 "d177" "queued" JobStatus.QUEUED
        (by decide) (by decide) (by decide) (by decide), rfl⟩,
    ⟨by decide, (C7_create_job_http201 wErrSrv).2 (by decide)⟩⟩

/-- Claim C8: error-message construction is a pure function of the JSON error
body: for every body with optional fields, the message is the rendered
`status_code`, then the rendered `code` in parentheses after a space, then a
colon, a space and the rendered `detail`, each missing field replaced by the
empty string; in particular the body with `status_code` 500, `code` "E1" and
`detail` "boom" yields exactly `"500 (E1): boom"`. -/
theorem C8_error_message_formula :
    (∀ body : JsonObj,
      _format_error_message body =
        jsonGetD body.status_code ++ " (" ++ jsonGetD body.code ++ "): " ++
          jsonGetD body.detail) ∧
    _format_error_message
        { status_code := some (.num 500), code := some (.str "E1"),
          detail := some (.str "boom") } = "500 (E1): boom" := by
  constructor
  · intro body
    exact pyFormat_three _ _ _
  · exact (pyFormat_three "500" "E1" "boom").trans (by decide)

/-- Claim C9: `ping()` returns true if and only if the health endpoint
responds with status code 200, and it never raises whatever the response
code is. -/
theorem C9_ping_liveness (srv : Server) :
    ∃ b : Bool, (Connection.ping srv).1 = .ok b ∧
      (b = true ↔ srv.healthResponse.status_code = 200) :=
  ⟨_, rfl, by simp⟩

/-- Claim C10: `refresh()` on a non-final job is not atomic: when the status
fetch reports `Completed` but the result fetch fails, the
`RequestFailedError` propagates to the caller, the job's status has already
been set to `COMPLETED`, its result is still absent — and a subsequent
`result` access therefore returns the `None` sentinel instead of raising or
returning samples. -/
theorem C10_refresh_not_atomic (srv : Server) (j : Job)
    (hnf : j.status.is_final = false) (hres : j._result = none)
    (hst : (Connection.get_job_status srv j.id).1 = .ok JobStatus.COMPLETED)
    (m : String)
    (hr : (Connection.get_job_result srv j.id).1 =
      .error (.RequestFailedError m)) :
    (Job.refresh srv j).outcome = .error (.RequestFailedError m) ∧
    (Job.refresh srv j).job.status = JobStatus.COMPLETED ∧
    (Job.refresh srv j).job._result = none ∧
    Job.result (Job.refresh srv j).job = .ok none := by
  have hnf' : j._status.is_final = false := hnf
  rcases hgs : Connection.get_job_status srv j.id with ⟨res, calls⟩
  rw [hgs] at hst
  simp at hst
  subst hst
  rcases hgr : Connection.get_job_result srv j.id with ⟨rres, rcalls⟩
  rw [hgr] at hr
  simp at hr
  subst hr
  simp [Job.refresh, hnf, hnf', hgs, hgr, Job.status, Job.result, hres]

/-- Witness for C10: a queued job refreshed against a server whose status
endpoint reports completion but whose result endpoint answers 500: the error
propagates, the status is already `COMPLETED`, and result access returns
`none`. -/
theorem C10_refresh_not_atomic_witness :
    (Job.init "abc" JobStatus.QUEUED).status.is_final = false ∧
    (Job.init "abc" JobStatus.QUEUED)._result = none ∧
    (Connection.get_job_status wErrSrv
      (Job.init "abc" JobStatus.QUEUED).id).1 = .ok JobStatus.COMPLETED ∧
    (Connection.get_job_result wErrSrv
      (Job.init "abc" JobStatus.QUEUED).id).1 = .error (.RequestFailedError
        ("Failed to get job result: " ++ _format_error_message
          (wErrSrv.resultResponse (Job.init "abc" JobStatus.QUEUED).id).body)) ∧
    ((Job.refresh wErrSrv (Job.init "abc" JobStatus.QUEUED)).outcome =
        .error (.RequestFailedError
          ("Failed to get job result: " ++ _format_error_message
            (wErrSrv.resultResponse
              (Job.init "abc" JobStatus.QUEUED).id).body)) ∧
      (Job.refresh wErrSrv (Job.init "abc" JobStatus.QUEUED)).job.status =
        JobStatus.COMPLETED ∧
      (Job.refresh wErrSrv (Job.init "abc" JobStatus.QUEUED)).job._result =
        none ∧
      Job.result (Job.refresh wErrSrv (Job.init "abc" JobStatus.QUEUED)).job =
        .ok none) :=
  ⟨by decide, rfl, by decide, rfl,
    C10_refresh_not_atomic wErrSrv _ (by decide) rfl (by decide) _ rfl⟩
